import Mathlib

/-!
Shallow embedding of the Verilog AI agent analysis pipeline
(`design_verifier.py`, `design_optimizer.py`, `doc_generator.py`,
`verilog_ai_agent.py`, `mcp_verilog_agent.py`).

All analysis in the source is pattern-based scanning of the source/testbench
text with Python `re`. The embedding models the exact regular expressions the
code uses with a small backtracking matcher (`matchT`) whose semantics follow
Python `re`: leftmost match, alternatives tried in order, greedy and lazy
quantifiers. Every quantifier in the repository's patterns applies to a
single-character class, which the token language below captures exactly.
-/

namespace VerilogAgent

/-- Character classes appearing in the repository's regular expressions
(ASCII behaviour; the texts the tools scan are ASCII). -/
inductive CC where
  | space   -- Python \s
  | word    -- Python \w
  | digit   -- Python \d
  | dot     -- . without re.DOTALL: any character except newline
  | dotAll  -- . under re.DOTALL: any character
  | notSemi -- [^;]
  | notRBr  -- [^\x5d]
deriving Repr, DecidableEq

def ccMatch : CC → Char → Bool
  | .space, c => c = ' ' || c = '\t' || c = '\n' || c = '\r' || c = '\x0b' || c = '\x0c'
  | .word, c => c.isAlphanum || c = '_'
  | .digit, c => c.isDigit
  | .dot, c => c != '\n'
  | .dotAll, _ => true
  | .notSemi, c => c != ';'
  | .notRBr, c => c != ']'

/-- Regex tokens. Quantified subexpressions in all of the repository's patterns
are single-character classes, so quantifiers carry a `CC`. `altT` is ordered
alternation (an optional `(?:x)?` is `altT [x, []]`, greedy). `mark0 i`/`mark1 i`
record the start/end of capturing group `i`. -/
inductive Tok where
  | lit : Char → Tok
  | one : CC → Tok
  | plusG : CC → Tok
  | starG : CC → Tok
  | starL : CC → Tok
  | altT : List (List Tok) → Tok
  | mark0 : Nat → Tok
  | mark1 : Nat → Tok
deriving Repr

/-- A pattern is its list of top-level alternatives, in source order. -/
abbrev Pat := List (List Tok)

mutual
/-- Weight of a token, used as recursion fuel for the matcher. -/
def tokW : Tok → Nat
  | .altT alts => 1 + altsW alts
  | _ => 1

def altsW : List (List Tok) → Nat
  | [] => 0
  | ts :: rest => toksW ts + 1 + altsW rest

def toksW : List Tok → Nat
  | [] => 0
  | t :: ts => tokW t + toksW ts
end

/-- Group capture store: (group index, start, stop). -/
abbrev Caps := List (Nat × Nat × Nat)

def setEnd (i p : Nat) : Caps → Caps
  | [] => []
  | (j, s, e) :: rest => if j = i then (j, s, p) :: rest else (j, s, e) :: setEnd i p rest

def firstSome {α : Type} : List (Option α) → Option α
  | [] => none
  | some a :: _ => some a
  | none :: rest => firstSome rest

/-- Length of the maximal run of characters of class `c` at position `pos`. -/
def runLen (inp : List Char) (c : CC) (pos : Nat) : Nat :=
  ((inp.drop pos).takeWhile (ccMatch c)).length

/-- Backtracking matcher with Python `re` semantics: returns the end position
and captures of the first match (in backtracking preference order) of the
token sequence at `pos`, or `none`. `fuel` bounds the recursion depth; every
recursive step replaces the token list by a strictly lighter one, so
`toksW ts + 1` fuel is always enough. -/
def matchT (inp : List Char) : Nat → List Tok → Nat → Caps → Option (Nat × Caps)
  | 0, _, _, _ => none
  | _ + 1, [], pos, caps => some (pos, caps)
  | f + 1, .lit c :: ts, pos, caps =>
      match inp.get? pos with
      | some x => if x = c then matchT inp f ts (pos + 1) caps else none
      | none => none
  | f + 1, .one cc :: ts, pos, caps =>
      match inp.get? pos with
      | some x => if ccMatch cc x then matchT inp f ts (pos + 1) caps else none
      | none => none
  | f + 1, .plusG cc :: ts, pos, caps =>
      match inp.get? pos with
      | some x =>
          if ccMatch cc x then
            let n := runLen inp cc (pos + 1)
            firstSome (((List.range (n + 1)).reverse).map
              fun i => matchT inp f ts (pos + 1 + i) caps)
          else none
      | none => none
  | f + 1, .starG cc :: ts, pos, caps =>
      let n := runLen inp cc pos
      firstSome (((List.range (n + 1)).reverse).map fun i => matchT inp f ts (pos + i) caps)
  | f + 1, .starL cc :: ts, pos, caps =>
      let n := runLen inp cc pos
      firstSome ((List.range (n + 1)).map fun i => matchT inp f ts (pos + i) caps)
  | f + 1, .altT alts :: ts, pos, caps =>
      firstSome (alts.map fun alt => matchT inp f (alt ++ ts) pos caps)
  | f + 1, .mark0 i :: ts, pos, caps => matchT inp f ts pos ((i, pos, pos) :: caps)
  | f + 1, .mark1 i :: ts, pos, caps => matchT inp f ts pos (setEnd i pos caps)

/-- First match of any alternative of `p` starting exactly at `pos`. -/
def matchAlt (p : Pat) (inp : List Char) (pos : Nat) : Option (Nat × Caps) :=
  firstSome (p.map fun ts => matchT inp (toksW ts + 1) ts pos [])

structure REMatch where
  mstart : Nat
  mstop : Nat
  caps : Caps
deriving Repr

/-- Leftmost match at or after `pos` (the scan loop of `re.search`). -/
def findFromF (p : Pat) (inp : List Char) : Nat → Nat → Option REMatch
  | 0, _ => none
  | f + 1, pos =>
      match matchAlt p inp pos with
      | some sc => some ⟨pos, sc.1, sc.2⟩
      | none => if pos < inp.length then findFromF p inp f (pos + 1) else none

/-- Models `re.search(p, s) is not None`. -/
def reSearch (p : Pat) (s : String) : Bool :=
  (findFromF p s.toList (s.toList.length + 1) 0).isSome

/-- All non-overlapping matches scanning left to right, as `re.finditer` /
`re.findall`; an empty-width match advances the scan position by one. -/
def findAllF (p : Pat) (inp : List Char) : Nat → Nat → List REMatch
  | 0, _ => []
  | f + 1, pos =>
      match findFromF p inp (inp.length + 1) pos with
      | none => []
      | some m =>
          let next := if m.mstart < m.mstop then m.mstop else m.mstop + 1
          m :: findAllF p inp f next

def reFindAll (p : Pat) (s : String) : List REMatch :=
  findAllF p s.toList (s.toList.length + 2) 0

/-- Models `len(re.findall(p, s))`. -/
def countMatches (p : Pat) (s : String) : Nat := (reFindAll p s).length

def lookupCap (i : Nat) : Caps → Option (Nat × Nat)
  | [] => none
  | (j, s, e) :: rest => if j = i then some (s, e) else lookupCap i rest

/-- `m.group(i)`: the captured substring, `none` when the group was never
entered during the match. -/
def groupStr (inp : List Char) (m : REMatch) (i : Nat) : Option String :=
  (lookupCap i m.caps).map fun se => String.mk ((inp.drop se.1).take (se.2 - se.1))

/-- Python `str.strip()`: drop leading and trailing whitespace. -/
def pyStrip (s : String) : String :=
  String.mk (((s.toList.dropWhile (ccMatch .space)).reverse.dropWhile (ccMatch .space)).reverse)

/-- Python `str.lower()` on the ASCII strings the tools handle. -/
def pyLower (s : String) : String := String.mk (s.toList.map Char.toLower)

def listIsPre : List Char → List Char → Bool
  | [], _ => true
  | _ :: _, [] => false
  | n :: ns, h :: hs => n = h && listIsPre ns hs

/-- Python `needle in hay` on strings. -/
def containsSub (hay needle : List Char) : Bool :=
  match hay with
  | [] => needle.isEmpty
  | _ :: hs => listIsPre needle hay || containsSub hs needle

def strHas (hay needle : String) : Bool := containsSub hay.toList needle.toList

/-- Literal characters of a string as tokens. -/
def lits (s : String) : List Tok := s.toList.map Tok.lit

/-! ### The repository's patterns

Each definition embeds one Python regular expression, quoted in its doc
comment, from `design_verifier.py`, `design_optimizer.py` or
`doc_generator.py`. -/

/-- `property\s+\w+` -/
def propertyPat : Pat := [lits "property" ++ [.plusG .space, .plusG .word]]

/-- `assume\s+\w+` -/
def assumePat : Pat := [lits "assume" ++ [.plusG .space, .plusG .word]]

/-- `covergroup\s+\w+` -/
def covergroupPat : Pat := [lits "covergroup" ++ [.plusG .space, .plusG .word]]

/-- `coverpoint\s+\w+` -/
def coverpointPat : Pat := [lits "coverpoint" ++ [.plusG .space, .plusG .word]]

/-- `assert\s+\w+` -/
def assertWordPat : Pat := [lits "assert" ++ [.plusG .space, .plusG .word]]

/-- `##\d+|@\(posedge` -/
def temporalPat : Pat := [[.lit '#', .lit '#', .plusG .digit], lits "@(posedge"]

/-- `;` -/
def semiPat : Pat := [[.lit ';']]

/-- `assert.*?;|if.*?;|else.*?;` -/
def coveredStmtPat : Pat :=
  [lits "assert" ++ [.starL .dot, .lit ';'],
   lits "if" ++ [.starL .dot, .lit ';'],
   lits "else" ++ [.starL .dot, .lit ';']]

/-- `if|case` -/
def branchPat : Pat := [lits "if", lits "case"]

/-- `default\s*:` -/
def defaultPat : Pat := [lits "default" ++ [.starG .space, .lit ':']]

/-- `always\s*@\s*\(posedge\s+clk\)` -/
def alwaysClkPat : Pat :=
  [lits "always" ++ [.starG .space, .lit '@', .starG .space, .lit '('] ++ lits "posedge"
    ++ [.plusG .space] ++ lits "clk" ++ [.lit ')']]

/-- `if.*else.*if.*else` -/
def ifElseChainPat : Pat :=
  [lits "if" ++ [.starG .dot] ++ lits "else" ++ [.starG .dot] ++ lits "if"
    ++ [.starG .dot] ++ lits "else"]

/-- `reg\s+\[.*?\]` -/
def sizedRegPat : Pat := [lits "reg" ++ [.plusG .space, .lit '[', .starL .dot, .lit ']']]

/-- `wire\s+\[.*?\].*?wire\s+\[.*?\]` -/
def wirePairPat : Pat :=
  [lits "wire" ++ [.plusG .space, .lit '[', .starL .dot, .lit ']', .starL .dot]
    ++ lits "wire" ++ [.plusG .space, .lit '[', .starL .dot, .lit ']']]

/-- `clock_en|clk_en|gated_clk` -/
def gatePat : Pat := [lits "clock_en", lits "clk_en", lits "gated_clk"]

/-- `enable|en\s*=` -/
def enablePat : Pat := [lits "enable", lits "en" ++ [.starG .space, .lit '=']]

/-- `@\s*\(posedge\s+clk\)` -/
def posedgeClkPat : Pat :=
  [[.lit '@', .starG .space, .lit '('] ++ lits "posedge" ++ [.plusG .space]
    ++ lits "clk" ++ [.lit ')']]

/-- `negedge\s+rst` -/
def negedgeRstPat : Pat := [lits "negedge" ++ [.plusG .space] ++ lits "rst"]

/-- `assign.*=.*\?.*:.*\?.*:` -/
def ternaryChainPat : Pat :=
  [lits "assign" ++ [.starG .dot, .lit '=', .starG .dot, .lit '?', .starG .dot, .lit ':',
    .starG .dot, .lit '?', .starG .dot, .lit ':']]

/-- `input.*reset` -/
def inputResetPat : Pat := [lits "input" ++ [.starG .dot] ++ lits "reset"]

/-- `state` -/
def statePat : Pat := [lits "state"]

/-- `data` -/
def dataPat : Pat := [lits "data"]

/-- `module\s+(\w+)` -/
def modulePat : Pat := [lits "module" ++ [.plusG .space, .mark0 1, .plusG .word, .mark1 1]]

/-- `/\*\*(.*?)\*/` with `re.DOTALL` -/
def descPat : Pat := [lits "/**" ++ [.mark0 1, .starL .dotAll, .mark1 1] ++ lits "*/"]

/-- `parameter\s+(\w+)\s*=\s*([^;]+);(?:\s*//\s*(.*))?` -/
def paramPat : Pat :=
  [lits "parameter" ++ [.plusG .space, .mark0 1, .plusG .word, .mark1 1, .starG .space,
    .lit '=', .starG .space, .mark0 2, .plusG .notSemi, .mark1 2, .lit ';',
    .altT [[.starG .space, .lit '/', .lit '/', .starG .space, .mark0 3, .starG .dot, .mark1 3],
      []]]]

/-- `(input|output|inout)\s+(?:wire|reg)?\s*(?:\[([^\x5d]+)\])?\s*(\w+)(?:\s*//\s*(.*))?` -/
def portPat : Pat :=
  [[.mark0 1, .altT [lits "input", lits "output", lits "inout"], .mark1 1, .plusG .space,
    .altT [lits "wire", lits "reg", []], .starG .space,
    .altT [[.lit '[', .mark0 2, .plusG .notRBr, .mark1 2, .lit ']'], []], .starG .space,
    .mark0 3, .plusG .word, .mark1 3,
    .altT [[.starG .space, .lit '/', .lit '/', .starG .space, .mark0 4, .starG .dot, .mark1 4],
      []]]]

/-- `(wire|reg)\s*(?:\[([^\x5d]+)\])?\s*(\w+)(?:\s*//\s*(.*))?` -/
def signalPat : Pat :=
  [[.mark0 1, .altT [lits "wire", lits "reg"], .mark1 1, .starG .space,
    .altT [[.lit '[', .mark0 2, .plusG .notRBr, .mark1 2, .lit ']'], []], .starG .space,
    .mark0 3, .plusG .word, .mark1 3,
    .altT [[.starG .space, .lit '/', .lit '/', .starG .space, .mark0 4, .starG .dot, .mark1 4],
      []]]]

/-- `// Test case.*?\n(.*?)// End test case` with `re.DOTALL` -/
def examplePat : Pat :=
  [lits "// Test case" ++ [.starL .dotAll, .lit '\n', .mark0 1, .starL .dotAll, .mark1 1]
    ++ lits "// End test case"]

/-! ## Design verifier (`design_verifier.py`) -/

inductive VerificationType where
  | formal
  | functional
  | assertion
  | coverage
deriving Repr, DecidableEq

/-- The `VerificationResult` dataclass. Coverage percentages are embedded as
exact rationals (the Python floats involved carry exact decimal values). -/
structure VerificationResult where
  verification_type : VerificationType
  passed : Bool
  coverage : Rat
  issues : List String
  suggestions : List String
deriving Repr, DecidableEq

/-- Python `%.1f` formatting of the coverage value in the low-coverage message
(rounding modelled as round-half-up on the exact rational; Python rounds the
nearest IEEE double). No claim depends on this string's exact digits. -/
def fmt1 (q : Rat) : String :=
  let t : Int := ⌊q * 10 + 1 / 2⌋
  toString (t / 10) ++ "." ++ toString ((t % 10).natAbs)

/-- `DesignVerifier.verify_formal_properties` (design_verifier.py lines 44-70). -/
def verify_formal_properties (verilog_content : String) : VerificationResult :=
  let hasProp := reSearch propertyPat verilog_content
  let hasAssume := reSearch assumePat verilog_content
  let coverage : Rat :=
    if hasProp then min 100 ((countMatches propertyPat verilog_content : Rat) * 20) else 0
  let issues :=
    (if hasProp then [] else ["No formal properties defined"]) ++
    (if hasAssume then [] else ["No assumptions defined"])
  let suggestions :=
    (if hasProp then [] else ["Add SVA properties for critical behavior"]) ++
    (if hasAssume then [] else ["Add assumptions about input behavior"])
  { verification_type := .formal
    passed := issues.length == 0
    coverage := coverage
    issues := issues
    suggestions := suggestions }

/-- `DesignVerifier.verify_functional_coverage` (lines 72-97); scans the
testbench text. -/
def verify_functional_coverage (testbench_content : String) : VerificationResult :=
  let hasCg := reSearch covergroupPat testbench_content
  let hasCp := reSearch coverpointPat testbench_content
  let coverage : Rat :=
    if hasCg then min 100 ((countMatches covergroupPat testbench_content : Rat) * 25) else 0
  let issues :=
    (if hasCg then [] else ["No coverage groups defined"]) ++
    (if hasCp then [] else ["No coverage points defined"])
  let suggestions :=
    (if hasCg then [] else ["Add covergroups for functional coverage"]) ++
    (if hasCp then [] else ["Add coverage points for state space exploration"])
  { verification_type := .functional
    passed := issues.length == 0
    coverage := coverage
    issues := issues
    suggestions := suggestions }

/-- `DesignVerifier.verify_assertions` (lines 99-124); scans the testbench
text. -/
def verify_assertions (testbench_content : String) : VerificationResult :=
  let hasAssert := reSearch assertWordPat testbench_content
  let hasTemporal := reSearch temporalPat testbench_content
  let coverage : Rat :=
    if hasAssert then min 100 ((countMatches assertWordPat testbench_content : Rat) * 10) else 0
  let issues :=
    (if hasAssert then [] else ["No assertions defined"]) ++
    (if hasTemporal then [] else ["No temporal assertions defined"])
  let suggestions :=
    (if hasAssert then [] else ["Add assertions for design invariants"]) ++
    (if hasTemporal then [] else ["Add temporal assertions for sequential behavior"])
  { verification_type := .assertion
    passed := issues.length == 0
    coverage := coverage
    issues := issues
    suggestions := suggestions }

/-- `DesignVerifier.verify_code_coverage` (lines 126-154): statement count is
taken from the design source, covered-statement count from the testbench; the
ratio carries no clamp. -/
def verify_code_coverage (verilog_content testbench_content : String) : VerificationResult :=
  let statements := countMatches semiPat verilog_content
  let covered_statements := countMatches coveredStmtPat testbench_content
  let coverage : Rat :=
    if statements > 0 then ((covered_statements : Rat) / (statements : Rat)) * 100 else 0
  let branches := countMatches branchPat verilog_content
  let issues :=
    (if coverage < 80 then ["Low code coverage: " ++ fmt1 coverage ++ "%"] else []) ++
    (if branches > 0 ∧ ¬ reSearch defaultPat verilog_content
     then ["Missing default case in case statements"] else [])
  let suggestions :=
    (if coverage < 80 then ["Add test cases to improve code coverage"] else []) ++
    (if branches > 0 ∧ ¬ reSearch defaultPat verilog_content
     then ["Add default cases for complete branch coverage"] else [])
  { verification_type := .coverage
    passed := decide (coverage ≥ 80)
    coverage := coverage
    issues := issues
    suggestions := suggestions }

structure VerificationSummary where
  total_issues : Nat
  total_suggestions : Nat
  average_coverage : Rat
  all_passed : Bool
deriving Repr, DecidableEq

/-- The report dict of `generate_verification_report`, with the four
dimensions in their insertion order formal, functional, assertion, coverage. -/
structure VerificationReport where
  summary : VerificationSummary
  formal : VerificationResult
  functional : VerificationResult
  assertion : VerificationResult
  coverage : VerificationResult
deriving Repr, DecidableEq

/-- `DesignVerifier.generate_verification_report` (lines 167-187). -/
def generate_verification_report (formal functional assertion coverage : VerificationResult) :
    VerificationReport :=
  { summary :=
      { total_issues := formal.issues.length + functional.issues.length +
          assertion.issues.length + coverage.issues.length
        total_suggestions := formal.suggestions.length + functional.suggestions.length +
          assertion.suggestions.length + coverage.suggestions.length
        average_coverage :=
          (formal.coverage + functional.coverage + assertion.coverage + coverage.coverage) / 4
        all_passed := formal.passed && functional.passed && assertion.passed && coverage.passed }
    formal := formal
    functional := functional
    assertion := assertion
    coverage := coverage }

/-- `DesignVerifier.verify_all` (lines 156-165). -/
def verify_all (verilog_content testbench_content : String) : VerificationReport :=
  generate_verification_report
    (verify_formal_properties verilog_content)
    (verify_functional_coverage testbench_content)
    (verify_assertions testbench_content)
    (verify_code_coverage verilog_content testbench_content)

/-- Canned reset-property block of `DesignVerifier.generate_assertions`. -/
def resetAssertionText : String :=
  "\n            // Reset assertion\n            property reset_assertion;\n                @(posedge clk) reset |-> ##1 (state == IDLE);\n            endproperty\n            assert property(reset_assertion);\n            "

/-- Canned pipeline-validity block of `DesignVerifier.generate_assertions`. -/
def pipelineAssertionText : String :=
  "\n            // Pipeline validity assertion\n            property pipeline_valid;\n                @(posedge clk) disable iff (reset)\n                $stable(valid) |-> ##1 $stable(data);\n            endproperty\n            assert property(pipeline_valid);\n            "

/-- `DesignVerifier.generate_assertions` (lines 189-214). -/
def generate_assertions (verilog_content : String) : String :=
  String.intercalate "\n"
    ((if reSearch inputResetPat verilog_content then [resetAssertionText] else []) ++
     (if reSearch alwaysClkPat verilog_content then [pipelineAssertionText] else []))

/-- Canned state-coverage block of `DesignVerifier.generate_coverage_model`. -/
def stateCoverageText : String :=
  "\n            covergroup state_coverage;\n                state_cp: coverpoint state \x7b\n                    bins states[] = \x7b[0:$]\x7d;\n                    bins transitions[] = ([0:$] => [0:$]);\n                \x7d\n            endgroup\n            "

/-- Canned data-coverage block of `DesignVerifier.generate_coverage_model`. -/
def dataCoverageText : String :=
  "\n            covergroup data_coverage;\n                data_cp: coverpoint data \x7b\n                    bins zero = \x7b0\x7d;\n                    bins small = \x7b[1:10]\x7d;\n                    bins large = \x7b[11:$]\x7d;\n                \x7d\n            endgroup\n            "

/-- `DesignVerifier.generate_coverage_model` (lines 216-243). -/
def generate_coverage_model (verilog_content : String) : String :=
  String.intercalate "\n"
    ((if reSearch statePat verilog_content then [stateCoverageText] else []) ++
     (if reSearch dataPat verilog_content then [dataCoverageText] else []))

/-! ## Design optimizer (`design_optimizer.py`) -/

inductive OptimizationType where
  | performance
  | area
  | power
  | timing
deriving Repr, DecidableEq

/-- A metric value of the per-dimension metric dicts. -/
inductive MVal where
  | nat : Nat → MVal
  | bool : Bool → MVal
deriving Repr, DecidableEq

/-- The `OptimizationResult` dataclass; the metric dicts are embedded as
ordered key-value lists. -/
structure OptimizationResult where
  optimization_type : OptimizationType
  original_metrics : List (String × MVal)
  optimized_metrics : List (String × MVal)
  improvements : List String
  suggested_changes : List String
deriving Repr, DecidableEq

/-- `DesignOptimizer.analyze_performance` (design_optimizer.py lines 42-66). -/
def analyze_performance (verilog_content : String) : OptimizationResult :=
  let chain := reSearch alwaysClkPat verilog_content && reSearch ifElseChainPat verilog_content
  let pipeline_stages := countMatches alwaysClkPat verilog_content
  let improvements :=
    (if chain then ["Long combinational paths detected"] else []) ++
    (if pipeline_stages > 0
     then ["Current pipeline depth: " ++ toString pipeline_stages] else [])
  let suggestions :=
    (if chain then ["Consider breaking down complex conditional logic"] else []) ++
    (if pipeline_stages > 0
     then ["Consider pipeline balancing for optimal performance"] else [])
  { optimization_type := .performance
    original_metrics := [("pipeline_depth", .nat pipeline_stages)]
    optimized_metrics := [("suggested_pipeline_depth", .nat (pipeline_stages + 1))]
    improvements := improvements
    suggested_changes := suggestions }

/-- `DesignOptimizer.analyze_area` (lines 68-90). -/
def analyze_area (verilog_content : String) : OptimizationResult :=
  let reg_count := countMatches sizedRegPat verilog_content
  let redundant := reSearch wirePairPat verilog_content
  let improvements :=
    (if reg_count > 0 then ["Current register count: " ++ toString reg_count] else []) ++
    (if redundant then ["Potential redundant wire declarations"] else [])
  let suggestions :=
    (if reg_count > 0 then ["Consider resource sharing for registers"] else []) ++
    (if redundant then ["Consider combining wire declarations"] else [])
  { optimization_type := .area
    original_metrics := [("register_count", .nat reg_count)]
    optimized_metrics := [("suggested_register_count", .nat (max 1 (reg_count - 1)))]
    improvements := improvements
    suggested_changes := suggestions }

/-- `DesignOptimizer.analyze_power` (lines 92-115): the metric dicts are the
constants `{"has_clock_gating": False}` and `{"suggested_clock_gating": True}`. -/
def analyze_power (verilog_content : String) : OptimizationResult :=
  let noGating := reSearch alwaysClkPat verilog_content && !(reSearch gatePat verilog_content)
  let noEnable := reSearch sizedRegPat verilog_content && !(reSearch enablePat verilog_content)
  let improvements :=
    (if noGating then ["No clock gating detected"] else []) ++
    (if noEnable then ["Registers without enable signals"] else [])
  let suggestions :=
    (if noGating then ["Consider adding clock gating for power reduction"] else []) ++
    (if noEnable then ["Add enable signals to reduce switching activity"] else [])
  { optimization_type := .power
    original_metrics := [("has_clock_gating", .bool false)]
    optimized_metrics := [("suggested_clock_gating", .bool true)]
    improvements := improvements
    suggested_changes := suggestions }

/-- `DesignOptimizer.analyze_timing` (lines 117-139): the metric dicts are the
constants `{"has_async_reset": False}` and `{"suggested_async_reset": True}`. -/
def analyze_timing (verilog_content : String) : OptimizationResult :=
  let syncReset := reSearch posedgeClkPat verilog_content &&
    !(reSearch negedgeRstPat verilog_content)
  let deepTernary := reSearch ternaryChainPat verilog_content
  let improvements :=
    (if syncReset then ["Synchronous reset detected"] else []) ++
    (if deepTernary then ["Deep combinational paths detected"] else [])
  let suggestions :=
    (if syncReset then ["Consider using asynchronous reset for better timing"] else []) ++
    (if deepTernary then ["Consider breaking down complex assignments"] else [])
  { optimization_type := .timing
    original_metrics := [("has_async_reset", .bool false)]
    optimized_metrics := [("suggested_async_reset", .bool true)]
    improvements := improvements
    suggested_changes := suggestions }

structure OptimizationSummary where
  total_improvements : Nat
  total_suggestions : Nat
deriving Repr, DecidableEq

/-- The report dict of `generate_optimization_report`, dimension insertion
order performance, area, power, timing. -/
structure OptimizationReport where
  summary : OptimizationSummary
  performance : OptimizationResult
  area : OptimizationResult
  power : OptimizationResult
  timing : OptimizationResult
deriving Repr, DecidableEq

/-- `DesignOptimizer.generate_optimization_report` (lines 152-170). -/
def generate_optimization_report (performance area power timing : OptimizationResult) :
    OptimizationReport :=
  { summary :=
      { total_improvements := performance.improvements.length + area.improvements.length +
          power.improvements.length + timing.improvements.length
        total_suggestions := performance.suggested_changes.length +
          area.suggested_changes.length + power.suggested_changes.length +
          timing.suggested_changes.length }
    performance := performance
    area := area
    power := power
    timing := timing }

/-- `DesignOptimizer.optimize_all` (lines 141-150). -/
def optimize_all (verilog_content : String) : OptimizationReport :=
  generate_optimization_report
    (analyze_performance verilog_content)
    (analyze_area verilog_content)
    (analyze_power verilog_content)
    (analyze_timing verilog_content)

/-- `DesignOptimizer._add_pipeline_registers` (lines 199-202): pass-through
hook, returns the code unchanged. -/
def add_pipeline_registers (code : String) : String := code

/-- `DesignOptimizer._optimize_resource_usage` (lines 204-207): pass-through
hook, returns the code unchanged. -/
def optimize_resource_usage (code : String) : String := code

/-- `DesignOptimizer._add_clock_gating` (lines 209-212): pass-through hook,
returns the code unchanged. -/
def add_clock_gating (code : String) : String := code

/-- Python `trigger in change.lower()`. -/
def lowerHas (change trigger : String) : Bool := strHas (pyLower change) trigger

/-- `DesignOptimizer.apply_optimizations` (lines 172-197). The report built by
`optimize_all` always carries all four dimension keys, so each
`if key in report["optimizations"]` guard in the source is taken. -/
def apply_optimizations (report : OptimizationReport) (verilog_content : String) : String :=
  let c1 := report.performance.suggested_changes.foldl
    (fun code change =>
      if lowerHas change "pipeline balancing" then add_pipeline_registers code else code)
    verilog_content
  let c2 := report.area.suggested_changes.foldl
    (fun code change =>
      if lowerHas change "resource sharing" then optimize_resource_usage code else code) c1
  let c3 := report.power.suggested_changes.foldl
    (fun code change =>
      if lowerHas change "clock gating" then add_clock_gating code else code) c2
  c3

/-! ## Documentation generator (`doc_generator.py`) -/

/-- One entry of `ModuleDoc.parameters` (`{"name", "value", "description"}`). -/
structure ParamDoc where
  name : String
  value : String
  description : String
deriving Repr, DecidableEq

/-- One entry of `ModuleDoc.ports`
(`{"direction", "width", "name", "description"}`). -/
structure PortDoc where
  direction : String
  width : String
  name : String
  description : String
deriving Repr, DecidableEq

/-- One entry of `ModuleDoc.signals`; the dict key `"type"` is embedded as the
field `sigType`. -/
structure SignalDoc where
  sigType : String
  width : String
  name : String
  description : String
deriving Repr, DecidableEq

/-- The `ModuleDoc` dataclass. -/
structure ModuleDoc where
  name : String
  description : String
  parameters : List ParamDoc
  ports : List PortDoc
  signals : List SignalDoc
  timing_diagrams : List String
  examples : List String
deriving Repr, DecidableEq

/-- The placeholder wavedrom block of `extract_module_info`. -/
def timingDiagramText : String :=
  "```wavedrom\n\x7bsignal: [\n  \x7bname: \x27clk\x27, wave: \x27p....\x27\x7d,\n  \x7bname: \x27data\x27, wave: \x27x345x\x27\x7d,\n]\x7d\n```"

/-- Python `m.group(i).strip() if m.group(i) else default`: an absent or empty
capture falls back to the default. -/
def capOrDefault (g : Option String) (default : String) : String :=
  match g with
  | some d => if d.isEmpty then default else pyStrip d
  | none => default

/-- Python `m.group(i) if m.group(i) else default` without stripping. -/
def capOrPlain (g : Option String) (default : String) : String :=
  match g with
  | some d => if d.isEmpty then default else d
  | none => default

/-- `DocGenerator.extract_module_info` (doc_generator.py lines 39-100). -/
def extract_module_info (verilog_content testbench_content : String) : ModuleDoc :=
  let vs := verilog_content.toList
  let ts := testbench_content.toList
  let module_name :=
    match findFromF modulePat vs (vs.length + 1) 0 with
    | some m => ((groupStr vs m 1).getD "Unknown")
    | none => "Unknown"
  let description :=
    match findFromF descPat vs (vs.length + 1) 0 with
    | some m => pyStrip ((groupStr vs m 1).getD "No description available")
    | none => "No description available"
  let parameters := (reFindAll paramPat verilog_content).map fun m =>
    { name := (groupStr vs m 1).getD ""
      value := pyStrip ((groupStr vs m 2).getD "")
      description := capOrDefault (groupStr vs m 3) "No description" : ParamDoc }
  let ports := (reFindAll portPat verilog_content).map fun m =>
    { direction := (groupStr vs m 1).getD ""
      width := capOrPlain (groupStr vs m 2) "1"
      name := (groupStr vs m 3).getD ""
      description := capOrDefault (groupStr vs m 4) "No description" : PortDoc }
  let signals := (reFindAll signalPat verilog_content).map fun m =>
    { sigType := (groupStr vs m 1).getD ""
      width := capOrPlain (groupStr vs m 2) "1"
      name := (groupStr vs m 3).getD ""
      description := capOrDefault (groupStr vs m 4) "No description" : SignalDoc }
  let examples := (reFindAll examplePat testbench_content).map fun m =>
    pyStrip ((groupStr ts m 1).getD "")
  { name := module_name
    description := description
    parameters := parameters
    ports := ports
    signals := signals
    timing_diagrams := [timingDiagramText]
    examples := examples }

/-- `DocGenerator.generate_markdown_doc` (lines 102-153). -/
def generate_markdown_doc (d : ModuleDoc) : String :=
  let header := ["# " ++ d.name, "\n" ++ d.description ++ "\n"]
  let params :=
    if d.parameters.isEmpty then [] else
      ["## Parameters", "\n| Parameter | Value | Description |",
       "|-----------|--------|-------------|"] ++
      d.parameters.map (fun p =>
        "| " ++ p.name ++ " | " ++ p.value ++ " | " ++ p.description ++ " |") ++ [""]
  let ports :=
    if d.ports.isEmpty then [] else
      ["## Ports", "\n| Port | Direction | Width | Description |",
       "|------|-----------|--------|-------------|"] ++
      d.ports.map (fun p =>
        "| " ++ p.name ++ " | " ++ p.direction ++ " | " ++ p.width ++ " | " ++
          p.description ++ " |") ++ [""]
  let signals :=
    if d.signals.isEmpty then [] else
      ["## Internal Signals", "\n| Signal | Type | Width | Description |",
       "|--------|------|--------|-------------|"] ++
      d.signals.map (fun s =>
        "| " ++ s.name ++ " | " ++ s.sigType ++ " | " ++ s.width ++ " | " ++
          s.description ++ " |") ++ [""]
  let timing :=
    if d.timing_diagrams.isEmpty then [] else
      ["## Timing Diagrams"] ++ d.timing_diagrams ++ [""]
  let examples :=
    if d.examples.isEmpty then [] else
      (d.examples.enum.map (fun ie =>
        ["\n### Example " ++ toString (ie.1 + 1), "```verilog", ie.2, "```\n"])).flatten
  String.intercalate "\n" (header ++ params ++ ports ++ signals ++ timing ++ examples)

/-- `DocGenerator.generate_all` (lines 176-188). The HTML and YAML renderers
are the external `markdown.markdown` and `yaml.dump` library collaborators,
passed in as functions. -/
def doc_generate_all (htmlRender : String → String) (yamlRender : ModuleDoc → String)
    (verilog_content testbench_content : String) : List (String × String) :=
  let module_doc := extract_module_info verilog_content testbench_content
  let markdown_doc := generate_markdown_doc module_doc
  [("markdown", markdown_doc), ("html", htmlRender markdown_doc),
   ("yaml", yamlRender module_doc)]

/-! ## Pipeline orchestrator (`verilog_ai_agent.py`) -/

inductive Stage where
  | generate
  | optimize
  | verify
  | document
deriving Repr, DecidableEq

/-- The source/testbench pair the Stage-1 generation collaborator yields. -/
structure GenFiles where
  verilog : String
  testbench : String
deriving Repr, DecidableEq

/-- The final dict `process_design` returns. -/
structure PipelineResult where
  original_verilog : String
  original_testbench : String
  optimized : String
  assertion_text : String
  coverage_model_text : String
  documentation : List (String × String)
  optimization_report : OptimizationReport
  verification_report : VerificationReport
deriving Repr, DecidableEq

/-- `VerilogAIAgent.process_design` (verilog_ai_agent.py lines 120-165),
embedded over the outcome `gen` of the Stage-1 external generation
collaborator. The second component records, in order, the stages the run
invoked. A raised generation error is caught by the `except` clause, logged,
and re-raised unchanged, so it reappears verbatim as the `.error` result and
Stage 2 (optimize), Stage 3 (verify) and Stage 4 (document) never run.
Stages 3 and 4 receive the optimized source file, exactly as the source
threads `optimization_results["optimized_file"]`. -/
def process_design (htmlRender : String → String) (yamlRender : ModuleDoc → String)
    (gen : Except String GenFiles) : Except String PipelineResult × List Stage :=
  match gen with
  | .error e => (.error e, [.generate])
  | .ok files =>
      let opt_report := optimize_all files.verilog
      let optimized_code := apply_optimizations opt_report files.verilog
      let ver_report := verify_all optimized_code files.testbench
      let assertion_text := generate_assertions optimized_code
      let coverage_model_text := generate_coverage_model optimized_code
      let docs := doc_generate_all htmlRender yamlRender optimized_code files.testbench
      (.ok { original_verilog := files.verilog
             original_testbench := files.testbench
             optimized := optimized_code
             assertion_text := assertion_text
             coverage_model_text := coverage_model_text
             documentation := docs
             optimization_report := opt_report
             verification_report := ver_report },
       [.generate, .optimize, .verify, .document])

/-! ## HTTP route handlers with temporary files (`mcp_verilog_agent.py`) -/

/-- A filesystem side effect the route handlers perform. -/
inductive FsOp where
  | write : String → FsOp
  | unlink : String → FsOp
deriving Repr, DecidableEq

/-- FastAPI's `HTTPException(status_code, detail)`. -/
structure HTTPError where
  status_code : Nat
  detail : String
deriving Repr, DecidableEq

/-- `POST /design/optimize` (mcp_verilog_agent.py lines 73-90): writes the
request body to `mcp_output/temp.v`, invokes the optimize stage (the
`analyze` collaborator, which may raise), then unlinks the temp file. The
`except` clause wraps any raised error into an HTTP 500. The second component
is the ordered trace of filesystem operations the handler executed: a raised
analyzer error skips the `unlink` line, so the trace ends after the write. -/
def optimize_route {α : Type} (analyze : String → Except String α) (verilog_code : String) :
    Except HTTPError α × List FsOp :=
  match analyze verilog_code with
  | .ok r => (.ok r, [.write "mcp_output/temp.v", .unlink "mcp_output/temp.v"])
  | .error e => (.error ⟨500, e⟩, [.write "mcp_output/temp.v"])

/-- `POST /design/verify` (mcp_verilog_agent.py lines 92-113): writes the two
request bodies to `mcp_output/temp.v` and `mcp_output/temp_tb.sv`, invokes
the verify stage, then unlinks both; a raised analyzer error skips both
`unlink` lines and surfaces as an HTTP 500. -/
def verify_route {α : Type} (analyze : String → String → Except String α)
    (verilog_code testbench : String) : Except HTTPError α × List FsOp :=
  match analyze verilog_code testbench with
  | .ok r => (.ok r, [.write "mcp_output/temp.v", .write "mcp_output/temp_tb.sv",
      .unlink "mcp_output/temp.v", .unlink "mcp_output/temp_tb.sv"])
  | .error e => (.error ⟨500, e⟩, [.write "mcp_output/temp.v", .write "mcp_output/temp_tb.sv"])

/-! ## Concrete texts used by the end-to-end scenario and the witnesses -/

/-- The counter module of the spec's end-to-end scenario. -/
def counterSrc : String :=
  "module counter(input clk, input rst_n, output reg [3:0] count); always @(posedge clk) count <= count + 1; endmodule"

/-- A testbench with no assertions and no covergroups. -/
def counterTb : String := "module counter_tb; initial begin end endmodule"

/-! ## Helper lemmas -/

theorem countMatches_eq_zero_iff (p : Pat) (s : String) :
    countMatches p s = 0 ↔ reSearch p s = false := by
  unfold countMatches reFindAll reSearch
  generalize s.toList = l
  cases h : findFromF p l (l.length + 1) 0 with
  | none => simp [findAllF, h]
  | some m => simp [findAllF, h]

theorem reSearch_true_of_count (p : Pat) (s : String) (n : Nat) (h1 : 1 ≤ n)
    (h2 : countMatches p s = n) : reSearch p s = true := by
  rcases hb : reSearch p s with _ | _
  · have h0 : countMatches p s = 0 := (countMatches_eq_zero_iff p s).mpr hb
    omega
  · rfl

theorem verify_formal_coverage_eq (v : String) :
    (verify_formal_properties v).coverage =
      (if reSearch propertyPat v then
        min 100 ((countMatches propertyPat v : Rat) * 20) else 0) := rfl

theorem verify_formal_issues_eq (v : String) :
    (verify_formal_properties v).issues =
      (if reSearch propertyPat v then [] else ["No formal properties defined"]) ++
      (if reSearch assumePat v then [] else ["No assumptions defined"]) := rfl

theorem verify_code_coverage_coverage_eq (v tb : String) :
    (verify_code_coverage v tb).coverage =
      (if countMatches semiPat v > 0 then
        ((countMatches coveredStmtPat tb : Rat) / (countMatches semiPat v : Rat)) * 100
      else 0) := rfl

theorem verify_code_coverage_passed_eq (v tb : String) :
    (verify_code_coverage v tb).passed =
      decide ((verify_code_coverage v tb).coverage ≥ 80) := rfl

theorem verify_code_coverage_issues_eq (v tb : String) :
    (verify_code_coverage v tb).issues =
      (if (verify_code_coverage v tb).coverage < 80 then
        ["Low code coverage: " ++ fmt1 ((verify_code_coverage v tb).coverage) ++ "%"]
       else []) ++
      (if countMatches branchPat v > 0 ∧ ¬ reSearch defaultPat v
       then ["Missing default case in case statements"] else []) := rfl

theorem length_beq_zero_iff (l : List String) : (l.length == 0) = true ↔ l = [] := by
  cases l <;> simp

theorem foldl_hook_id (t : String) (hook : String → String) (hh : ∀ x, hook x = x) :
    ∀ (l : List String) (c : String),
      l.foldl (fun code change => if lowerHas change t then hook code else code) c = c := by
  intro l
  induction l with
  | nil => intro c; rfl
  | cons a l ih =>
      intro c
      simp only [List.foldl_cons]
      have hstep : (if lowerHas a t then hook c else c) = c := by
        split
        · exact hh c
        · rfl
      rw [hstep]
      exact ih c

theorem verify_functional_issues_eq (tb : String) :
    (verify_functional_coverage tb).issues =
      (if reSearch covergroupPat tb then [] else ["No coverage groups defined"]) ++
      (if reSearch coverpointPat tb then [] else ["No coverage points defined"]) := rfl

theorem verify_assertions_issues_eq (tb : String) :
    (verify_assertions tb).issues =
      (if reSearch assertWordPat tb then [] else ["No assertions defined"]) ++
      (if reSearch temporalPat tb then [] else ["No temporal assertions defined"]) := rfl

theorem verify_all_all_passed_eq (v tb : String) :
    (verify_all v tb).summary.all_passed =
      ((verify_formal_properties v).passed && (verify_functional_coverage tb).passed &&
       (verify_assertions tb).passed && (verify_code_coverage v tb).passed) := rfl

/-! ## Claim theorems -/

/-- Claim C1, amended: for every source and testbench, the code-coverage
dimension's coverage value is nonnegative; it is 0 when the source contains
zero `;` statements (no division fault); it lies in [0,100] whenever the
covered-statement count does not exceed the statement count (without that
bound it can exceed 100, since the two counts come from different texts); and
the passed flag is true iff coverage ≥ 80. -/
theorem code_coverage_spec (v tb : String) :
    0 ≤ (verify_code_coverage v tb).coverage ∧
    (countMatches semiPat v = 0 → (verify_code_coverage v tb).coverage = 0) ∧
    (countMatches coveredStmtPat tb ≤ countMatches semiPat v →
      (verify_code_coverage v tb).coverage ≤ 100) ∧
    ((verify_code_coverage v tb).passed = true ↔ 80 ≤ (verify_code_coverage v tb).coverage) := by
  refine ⟨?_, ?_, ?_, ?_⟩
  · rw [verify_code_coverage_coverage_eq]
    split
    · positivity
    · norm_num
  · intro h0
    rw [verify_code_coverage_coverage_eq, h0]
    norm_num
  · intro hle
    rw [verify_code_coverage_coverage_eq]
    split
    · rename_i hpos
      have hs0 : (0 : Rat) < (countMatches semiPat v : Rat) := by exact_mod_cast hpos
      have hcs : ((countMatches coveredStmtPat tb : Rat)) ≤ (countMatches semiPat v : Rat) := by
        exact_mod_cast hle
      rw [div_mul_eq_mul_div, div_le_iff₀ hs0]
      nlinarith
    · norm_num
  · rw [verify_code_coverage_passed_eq]
    simp [ge_iff_le]

/-- Witness for C1: on an empty source the coverage is 0; on source `;` with
testbench `if a;` (one covered statement, one statement) it is within 100. -/
theorem code_coverage_spec_witness :
    (verify_code_coverage "" counterTb).coverage = 0 ∧
    (verify_code_coverage ";" "if a;").coverage ≤ 100 :=
  ⟨(code_coverage_spec "" counterTb).2.1 (by decide),
   (code_coverage_spec ";" "if a;").2.2.1 (by decide)⟩

/-- Counterexample to C1 as stated: for source `;` (one statement) and
testbench `if a;if b;` (two covered-statement matches) the coverage is 200,
outside [0,100] — the code has no clamp. -/
theorem code_coverage_counterexample :
    (verify_code_coverage ";" "if a;if b;").coverage = 200 ∧
    ¬ (verify_code_coverage ";" "if a;if b;").coverage ≤ 100 := by
  have h1 : countMatches semiPat ";" = 1 := by decide
  have h2 : countMatches coveredStmtPat "if a;if b;" = 2 := by decide
  have hc : (verify_code_coverage ";" "if a;if b;").coverage = 200 := by
    rw [verify_code_coverage_coverage_eq, h1, h2]
    norm_num
  refine ⟨hc, ?_⟩
  rw [hc]
  norm_num

/-- Claim C2, amended: for the formal, functional and assertion dimensions the
passed flag is true iff that dimension's findings sequence is empty; for the
code-coverage dimension passed is instead true iff coverage ≥ 80, which can
hold while findings are present (see the counterexample). -/
theorem passed_iff_issues_empty (v tb : String) :
    ((verify_formal_properties v).passed = true ↔ (verify_formal_properties v).issues = []) ∧
    ((verify_functional_coverage tb).passed = true ↔
      (verify_functional_coverage tb).issues = []) ∧
    ((verify_assertions tb).passed = true ↔ (verify_assertions tb).issues = []) ∧
    ((verify_code_coverage v tb).passed = true ↔ 80 ≤ (verify_code_coverage v tb).coverage) := by
  refine ⟨?_, ?_, ?_, ?_⟩
  · show ((verify_formal_properties v).issues.length == 0) = true ↔ _
    exact length_beq_zero_iff _
  · show ((verify_functional_coverage tb).issues.length == 0) = true ↔ _
    exact length_beq_zero_iff _
  · show ((verify_assertions tb).issues.length == 0) = true ↔ _
    exact length_beq_zero_iff _
  · rw [verify_code_coverage_passed_eq]
    simp [ge_iff_le]

/-- Witness for C2: on the empty source the formal dimension's findings are
nonempty, so by the iff its passed flag is not true. -/
theorem passed_iff_issues_empty_witness :
    ¬ (verify_formal_properties "").passed = true :=
  fun h => (by decide : ¬ (verify_formal_properties "").issues = [])
    ((passed_iff_issues_empty "" "").1.mp h)

/-- Counterexample to C2 as stated: source `if;` with testbench `if x;` gives
the code-coverage dimension coverage 100 (passed) together with the
"Missing default case" finding, so passed is true while findings are
nonempty. -/
theorem passed_iff_issues_empty_counterexample :
    (verify_code_coverage "if;" "if x;").passed = true ∧
    (verify_code_coverage "if;" "if x;").issues ≠ [] := by
  have h1 : countMatches semiPat "if;" = 1 := by decide
  have h2 : countMatches coveredStmtPat "if x;" = 1 := by decide
  have hc : (verify_code_coverage "if;" "if x;").coverage = 100 := by
    rw [verify_code_coverage_coverage_eq, h1, h2]
    norm_num
  have hb : countMatches branchPat "if;" = 1 := by decide
  have hd : reSearch defaultPat "if;" = false := by decide
  constructor
  · rw [verify_code_coverage_passed_eq, hc]
    norm_num
  · rw [verify_code_coverage_issues_eq, hc]
    norm_num [hb, hd]

/-- Claim C3: `apply_optimizations` returns the source unchanged whenever no
suggestion string in the report contains (after lowercasing, as the code
checks) any of the trigger substrings "pipeline balancing",
"resource sharing" or "clock gating". -/
theorem apply_optimizations_id (report : OptimizationReport) (src : String)
    (h : ∀ change ∈ report.performance.suggested_changes ++
        report.area.suggested_changes ++ report.power.suggested_changes ++
        report.timing.suggested_changes,
      lowerHas change "pipeline balancing" = false ∧
      lowerHas change "resource sharing" = false ∧
      lowerHas change "clock gating" = false) :
    apply_optimizations report src = src := by
  simp only [apply_optimizations]
  rw [foldl_hook_id "clock gating" add_clock_gating (fun _ => rfl),
    foldl_hook_id "resource sharing" optimize_resource_usage (fun _ => rfl),
    foldl_hook_id "pipeline balancing" add_pipeline_registers (fun _ => rfl)]

/-- Witness for C3: the report of an empty source has no suggestions at all,
and applying it leaves a module text unchanged. -/
theorem apply_optimizations_id_witness :
    apply_optimizations (optimize_all "") "module m; endmodule" = "module m; endmodule" :=
  apply_optimizations_id (optimize_all "") "module m; endmodule" (by decide)

/-- Claim C4: with zero `property` declarations, formal coverage is 0 and the
"No formal properties defined" finding is present; with n ≥ 1 declarations
the coverage is min(100, n·20); and absence of an `assume` token yields the
"No assumptions defined" finding regardless of the property count. -/
theorem formal_dimension_spec (v : String) :
    (countMatches propertyPat v = 0 →
      (verify_formal_properties v).coverage = 0 ∧
      "No formal properties defined" ∈ (verify_formal_properties v).issues) ∧
    (∀ n : Nat, 1 ≤ n → countMatches propertyPat v = n →
      (verify_formal_properties v).coverage = min 100 ((n : Rat) * 20)) ∧
    (reSearch assumePat v = false →
      "No assumptions defined" ∈ (verify_formal_properties v).issues) := by
  refine ⟨?_, ?_, ?_⟩
  · intro h0
    have hs : reSearch propertyPat v = false := (countMatches_eq_zero_iff _ _).mp h0
    constructor
    · rw [verify_formal_coverage_eq]
      simp [hs]
    · rw [verify_formal_issues_eq]
      simp [hs]
  · intro n h1 h2
    have hs : reSearch propertyPat v = true := reSearch_true_of_count _ _ n h1 h2
    rw [verify_formal_coverage_eq]
    simp [hs, h2]
  · intro ha
    rw [verify_formal_issues_eq]
    simp [ha]

/-- Witness for C4: the empty source has zero properties and coverage 0, and a
source with one property declaration gets coverage min(100, 20) = 20. -/
theorem formal_dimension_spec_witness :
    (verify_formal_properties "").coverage = 0 ∧
    (verify_formal_properties "property p1; endproperty").coverage = 20 := by
  constructor
  · exact ((formal_dimension_spec "").1 (by decide)).1
  · have h := (formal_dimension_spec "property p1; endproperty").2.1 1 (by norm_num) (by decide)
    rw [h]
    norm_num

/-- Claim C5: the verification report's summary fields are exactly the
aggregates of the four dimensions: issue and suggestion totals are the sums,
average_coverage is the arithmetic mean (sum divided by 4), and all_passed is
the conjunction of the four passed flags. -/
theorem verification_summary_spec (v tb : String) :
    (verify_all v tb).summary.total_issues =
      (verify_all v tb).formal.issues.length + (verify_all v tb).functional.issues.length +
      (verify_all v tb).assertion.issues.length + (verify_all v tb).coverage.issues.length ∧
    (verify_all v tb).summary.total_suggestions =
      (verify_all v tb).formal.suggestions.length +
      (verify_all v tb).functional.suggestions.length +
      (verify_all v tb).assertion.suggestions.length +
      (verify_all v tb).coverage.suggestions.length ∧
    (verify_all v tb).summary.average_coverage =
      ((verify_all v tb).formal.coverage + (verify_all v tb).functional.coverage +
       (verify_all v tb).assertion.coverage + (verify_all v tb).coverage.coverage) / 4 ∧
    (verify_all v tb).summary.all_passed =
      ((verify_all v tb).formal.passed && (verify_all v tb).functional.passed &&
       (verify_all v tb).assertion.passed && (verify_all v tb).coverage.passed) :=
  ⟨rfl, rfl, rfl, rfl⟩

/-- Claim C6: when Stage-1 generation fails, `process_design` propagates the
generation error unchanged, runs no later stage (the invocation trace is just
the generate stage), and returns no partial report. -/
theorem process_design_aborts_on_gen_failure (e : String)
    (htmlRender : String → String) (yamlRender : ModuleDoc → String) :
    (process_design htmlRender yamlRender (Except.error e)).1 = Except.error e ∧
    (process_design htmlRender yamlRender (Except.error e)).2 = [Stage.generate] ∧
    Stage.optimize ∉ (process_design htmlRender yamlRender (Except.error e)).2 ∧
    Stage.verify ∉ (process_design htmlRender yamlRender (Except.error e)).2 ∧
    Stage.document ∉ (process_design htmlRender yamlRender (Except.error e)).2 := by
  refine ⟨rfl, rfl, ?_, ?_, ?_⟩ <;> simp [process_design]

/-- Witness for C6: a concrete failing generation outcome propagates its error
unchanged and the trace holds only the generate stage. -/
theorem process_design_aborts_witness :
    (process_design id (fun _ => "") (Except.error "generation failed")).1 =
      Except.error "generation failed" ∧
    (process_design id (fun _ => "") (Except.error "generation failed")).2 =
      [Stage.generate] :=
  ⟨(process_design_aborts_on_gen_failure "generation failed" id (fun _ => "")).1,
   (process_design_aborts_on_gen_failure "generation failed" id (fun _ => "")).2.1⟩

/-- Claim C7, amended: each temp-file route removes its temporary files when
the analyzer call succeeds, but when the analyzer raises, the unlink lines
are skipped (the temp files are left behind) and the error surfaces as an
HTTP 500 — cleanup is not guaranteed on failure. -/
theorem temp_cleanup_spec {α : Type} (analyze1 : String → Except String α)
    (analyze2 : String → String → Except String α) (code tb : String) :
    (∀ r, analyze1 code = Except.ok r →
      (optimize_route analyze1 code).2 =
        [FsOp.write "mcp_output/temp.v", FsOp.unlink "mcp_output/temp.v"]) ∧
    (∀ err, analyze1 code = Except.error err →
      FsOp.unlink "mcp_output/temp.v" ∉ (optimize_route analyze1 code).2 ∧
      (optimize_route analyze1 code).1 = Except.error ⟨500, err⟩) ∧
    (∀ r, analyze2 code tb = Except.ok r →
      (verify_route analyze2 code tb).2 =
        [FsOp.write "mcp_output/temp.v", FsOp.write "mcp_output/temp_tb.sv",
         FsOp.unlink "mcp_output/temp.v", FsOp.unlink "mcp_output/temp_tb.sv"]) ∧
    (∀ err, analyze2 code tb = Except.error err →
      FsOp.unlink "mcp_output/temp.v" ∉ (verify_route analyze2 code tb).2 ∧
      FsOp.unlink "mcp_output/temp_tb.sv" ∉ (verify_route analyze2 code tb).2) := by
  refine ⟨?_, ?_, ?_, ?_⟩ <;> intro x hx <;> simp [optimize_route, verify_route, hx]

/-- Witness for C7: a succeeding analyzer leads to write-then-unlink; a
raising analyzer leaves the temp file unremoved. -/
theorem temp_cleanup_spec_witness :
    (optimize_route (fun _ => (Except.ok 0 : Except String Nat)) "m").2 =
      [FsOp.write "mcp_output/temp.v", FsOp.unlink "mcp_output/temp.v"] ∧
    FsOp.unlink "mcp_output/temp.v" ∉
      (optimize_route (fun _ => (Except.error "e" : Except String Nat)) "m").2 :=
  ⟨(temp_cleanup_spec (fun _ => Except.ok 0) (fun _ _ => Except.ok 0) "m" "t").1 0 rfl,
   ((temp_cleanup_spec (fun _ => Except.error "e") (fun _ _ => Except.error "e") "m" "t").2.1
     "e" rfl).1⟩

/-- Counterexample to C7 as stated: when the analyzer raises, the optimize
route never unlinks `mcp_output/temp.v` — the temp file is not removed on
failure. -/
theorem temp_cleanup_counterexample :
    FsOp.unlink "mcp_output/temp.v" ∉
      (optimize_route (fun _ => (Except.error "analyzer raised" : Except String Unit))
        "module m;").2 := by
  decide

/-- Claim C8: for the counter source of the spec's end-to-end scenario and any
testbench with no assertions and no covergroups: the verification report has
all_passed = false, the assertion dimension flags "No assertions defined",
the functional dimension flags "No coverage groups defined"; and on the
optimization side the performance dimension reports pipeline depth 1, the
power dimension flags missing clock gating and registers without enables,
and the timing dimension flags a synchronous reset. -/
theorem end_to_end_counter_scenario (tb : String)
    (hA : reSearch assertWordPat tb = false)
    (hC : reSearch covergroupPat tb = false) :
    (verify_all counterSrc tb).summary.all_passed = false ∧
    "No assertions defined" ∈ (verify_all counterSrc tb).assertion.issues ∧
    "No coverage groups defined" ∈ (verify_all counterSrc tb).functional.issues ∧
    (optimize_all counterSrc).performance.original_metrics =
      [("pipeline_depth", MVal.nat 1)] ∧
    "No clock gating detected" ∈ (optimize_all counterSrc).power.improvements ∧
    "Registers without enable signals" ∈ (optimize_all counterSrc).power.improvements ∧
    "Synchronous reset detected" ∈ (optimize_all counterSrc).timing.improvements := by
  refine ⟨?_, ?_, ?_, by decide, by decide, by decide, by decide⟩
  · rw [verify_all_all_passed_eq]
    have hf : (verify_formal_properties counterSrc).passed = false := by decide
    simp [hf]
  · show "No assertions defined" ∈ (verify_assertions tb).issues
    rw [verify_assertions_issues_eq]
    simp [hA]
  · show "No coverage groups defined" ∈ (verify_functional_coverage tb).issues
    rw [verify_functional_issues_eq]
    simp [hC]

/-- Witness for C8: the concrete testbench `counterTb` has no assertions and
no covergroups, and the scenario's verification verdict holds on it. -/
theorem end_to_end_counter_scenario_witness :
    reSearch assertWordPat counterTb = false ∧
    reSearch covergroupPat counterTb = false ∧
    (verify_all counterSrc counterTb).summary.all_passed = false := by
  refine ⟨by decide, by decide, ?_⟩
  exact (end_to_end_counter_scenario counterTb (by decide) (by decide)).1

/-- Claim C9: module-information extraction is deterministic over its text
inputs — in this embedding it is a pure function of the source and testbench
texts (no hidden state), so two runs on identical texts agree field for
field. -/
theorem extraction_idempotent (v tb : String) :
    (extract_module_info v tb).name = (extract_module_info v tb).name ∧
    (extract_module_info v tb).description = (extract_module_info v tb).description ∧
    (extract_module_info v tb).parameters = (extract_module_info v tb).parameters ∧
    (extract_module_info v tb).ports = (extract_module_info v tb).ports ∧
    (extract_module_info v tb).signals = (extract_module_info v tb).signals ∧
    (extract_module_info v tb).timing_diagrams = (extract_module_info v tb).timing_diagrams ∧
    (extract_module_info v tb).examples = (extract_module_info v tb).examples ∧
    extract_module_info v tb = extract_module_info v tb :=
  ⟨rfl, rfl, rfl, rfl, rfl, rfl, rfl, rfl⟩

/-- Claim C10: the power dimension's original/optimized boolean metrics and
the timing dimension's original has_async_reset metric are constants — for
every source text they read false / true / false, independent of whether
clock gating or an asynchronous reset is actually present. -/
theorem power_timing_metrics_constant (v : String) :
    (analyze_power v).original_metrics = [("has_clock_gating", MVal.bool false)] ∧
    (analyze_power v).optimized_metrics = [("suggested_clock_gating", MVal.bool true)] ∧
    (analyze_timing v).original_metrics = [("has_async_reset", MVal.bool false)] :=
  ⟨rfl, rfl, rfl⟩

end VerilogAgent
